import Mathlib

/-!
Shallow embedding of the visual-capture runner
`jules-scratch/verification/verify_ui_ux.py`.

The script launches a headless browser, creates a context and a page, and
then (inside a `try` block) performs a fixed linear sequence of navigation,
wait, click, locator and screenshot statements; a `finally` clause closes
the browser.  We embed the `try`-body as a fixed list of steps, executed
strictly in order.  An `Env` oracle decides, per statement index, whether
each fallible statement succeeds and how many bytes each successful
screenshot writes; the filesystem is an association list from paths to
sizes with overwrite-on-write semantics.
-/

/-- One statement of the script body.  `locate` is Playwright's lazy
`page.locator(...)`, which never fails by itself; `goto`, `waitForSelector`,
`click` and `screenshot` are the fallible statements. -/
inductive Step where
  | goto (url : String)
  | waitForSelector (sel : String)
  | locate (sel : String)
  | click (sel : String)
  | screenshot (target : Option String) (path : String)
  deriving DecidableEq

/-- Whether a statement can raise: every statement except `locate`. -/
def Step.fallible : Step → Bool
  | .locate _ => false
  | _ => true

/-- Whether a statement is a screenshot capture. -/
def Step.isCapture : Step → Bool
  | .screenshot _ _ => true
  | _ => false

/-- The filesystem: paths mapped to file sizes in bytes. -/
abbrev FS := List (String × Nat)

/-- Write `sz` bytes at path `p`, overwriting any existing file of that
name (the previous entry is dropped, so keys stay unique). -/
def fwrite (fs : FS) (p : String) (sz : Nat) : FS :=
  (p, sz) :: fs.filter (fun e => !(e.1 == p))

/-- Look up the size of the file at path `p`, `none` when absent. -/
def flookup : FS → String → Option Nat
  | [], _ => none
  | e :: rest, p => if e.1 = p then some e.2 else flookup rest p

/-- The five fixed screenshot paths of the script, in capture order. -/
def path1 : String := "jules-scratch/verification/01_main_page.png"

def path2 : String := "jules-scratch/verification/02_header.png"

def path3 : String := "jules-scratch/verification/03_image_grid.png"

def path4 : String := "jules-scratch/verification/04_upload_form.png"

def path5 : String := "jules-scratch/verification/05_image_modal.png"

/-- The body of the `try` block of `run`, statement by statement, in source
order (indices 0 to 16). -/
def steps : List Step :=
  [ Step.goto "http://localhost:5173",
    Step.waitForSelector "text=Visuals",
    Step.screenshot none path1,
    Step.locate "header",
    Step.screenshot (some "header") path2,
    Step.locate ".grid",
    Step.screenshot (some ".grid") path3,
    Step.click "text=Upload",
    Step.waitForSelector "text=Upload Images",
    Step.locate "main",
    Step.screenshot (some "main") path4,
    Step.click "text=Gallery",
    Step.waitForSelector ".grid",
    Step.click ".grid > div:first-child",
    Step.waitForSelector "h2",
    Step.locate "div[role='dialog']",
    Step.screenshot (some "div[role='dialog']") path5 ]

/-- The external world for one run of the body: for the statement at index
`i`, `stepOk i` says whether that statement succeeds when attempted
(ignored for infallible `locate` statements), and `shotSize i` is the
number of bytes the screenshot at index `i` writes when it succeeds. -/
structure Env where
  stepOk : Nat → Bool
  shotSize : Nat → Nat

/-- Execute the statements of `l` in order, starting at statement index `c`
on filesystem `fs`.  Returns the final filesystem, whether every statement
succeeded, and how many statements were attempted.  A failing statement
aborts the remainder (the Python exception propagates out of the `try`
body). -/
def execFrom (env : Env) : Nat → List Step → FS → FS × Bool × Nat
  | _, [], fs => (fs, true, 0)
  | c, Step.locate _ :: rest, fs =>
      let r := execFrom env (c + 1) rest fs
      (r.1, r.2.1, r.2.2 + 1)
  | c, Step.goto _ :: rest, fs =>
      if env.stepOk c then
        let r := execFrom env (c + 1) rest fs
        (r.1, r.2.1, r.2.2 + 1)
      else (fs, false, 1)
  | c, Step.waitForSelector _ :: rest, fs =>
      if env.stepOk c then
        let r := execFrom env (c + 1) rest fs
        (r.1, r.2.1, r.2.2 + 1)
      else (fs, false, 1)
  | c, Step.click _ :: rest, fs =>
      if env.stepOk c then
        let r := execFrom env (c + 1) rest fs
        (r.1, r.2.1, r.2.2 + 1)
      else (fs, false, 1)
  | c, Step.screenshot _ p :: rest, fs =>
      if env.stepOk c then
        let r := execFrom env (c + 1) rest (fwrite fs p (env.shotSize c))
        (r.1, r.2.1, r.2.2 + 1)
      else (fs, false, 1)

/-- Index of the first fallible statement of `l` (numbering from `c`) that
the environment makes fail, if any. -/
def firstFailAux (env : Env) : Nat → List Step → Option Nat
  | _, [] => none
  | c, s :: rest =>
      if s.fallible && !(env.stepOk c) then some c
      else firstFailAux env (c + 1) rest

/-- Index of the first failing statement of the script body, if any. -/
def firstFail (env : Env) : Option Nat :=
  firstFailAux env 0 steps

/-- Whether the three acquisition calls preceding the `try` block succeed:
`playwright.chromium.launch`, `browser.new_context`, `context.new_page`. -/
structure LaunchEnv where
  launchOk : Bool
  newContextOk : Bool
  newPageOk : Bool

/-- Observable outcome of one call of `run`: the filesystem afterwards,
whether `run` returned normally (an uncaught exception makes the process
exit non-zero), whether `browser.close()` was executed, and how many body
statements were attempted. -/
structure RunOutcome where
  fs : FS
  completed : Bool
  browserClosed : Bool
  stepsExecuted : Nat

/-- The `run` function of the script.  The `try` block opens only after
`launch`, `new_context` and `new_page` have all succeeded; its `finally`
clause runs `browser.close()` on every exit path out of the body.  A
failure of `new_context` or `new_page` happens before the `try`, so no
close is executed by `run` in that case. -/
def run (lenv : LaunchEnv) (env : Env) (fs0 : FS) : RunOutcome :=
  if lenv.launchOk then
    if lenv.newContextOk then
      if lenv.newPageOk then
        let r := execFrom env 0 steps fs0
        ⟨r.1, r.2.1, true, r.2.2⟩
      else ⟨fs0, false, false, 0⟩
    else ⟨fs0, false, false, 0⟩
  else ⟨fs0, false, false, 0⟩

/-- The paths written by the screenshot statements of `l`, in order. -/
def shotPaths : List Step → List String
  | [] => []
  | Step.screenshot _ p :: rest => p :: shotPaths rest
  | _ :: rest => shotPaths rest

/-- The fixed output filenames of the script. -/
def outputPaths : List String := shotPaths steps

/-- Launch environment in which browser, context and page all come up. -/
def lenvAllOk : LaunchEnv := ⟨true, true, true⟩

/-- Launch environment in which `new_context` fails after a successful
browser launch. -/
def lenvNoCtx : LaunchEnv := ⟨true, false, true⟩

/-- Environment in which every statement succeeds and every screenshot
writes one byte. -/
def envAll : Env := ⟨fun _ => true, fun _ => 1⟩

/-- Environment in which every fallible statement fails. -/
def envNone : Env := ⟨fun _ => false, fun _ => 1⟩

/-- Environment in which only the wait at index 1 (for "Visuals") fails. -/
def envFail1 : Env := ⟨fun i => decide (i ≠ 1), fun _ => 1⟩

/-- Environment in which only the click at index 7 (on "Upload") fails. -/
def envFail7 : Env := ⟨fun i => decide (i ≠ 7), fun _ => 1⟩

/-- Environment in which navigation and the first wait succeed but the
first screenshot statement (index 2) fails, e.g. an unwritable path. -/
def envCapFail : Env := ⟨fun i => decide (i < 2), fun _ => 1⟩

example : outputPaths = [path1, path2, path3, path4, path5] := rfl

example : steps.length = 17 := rfl

/-! Helper lemmas about the filesystem model. -/

theorem flookup_filter_ne (fs : FS) (p q : String) (h : p ≠ q) :
    flookup (fs.filter (fun e => !(e.1 == p))) q = flookup fs q := by
  induction fs with
  | nil => rfl
  | cons e rest ih =>
      cases hbe : (e.1 == p) with
      | true =>
          have he : e.1 = p := by simpa using hbe
          have heq : ¬ e.1 = q := by rw [he]; exact h
          simp [List.filter_cons, hbe, flookup, heq, ih]
      | false =>
          by_cases heq : e.1 = q
          · simp [List.filter_cons, hbe, flookup, heq, Ne.symm h]
          · simp [List.filter_cons, hbe, flookup, heq, ih]

theorem flookup_fwrite (fs : FS) (p q : String) (sz : Nat) :
    flookup (fwrite fs p sz) q = if p = q then some sz else flookup fs q := by
  by_cases h : p = q
  · simp [fwrite, flookup, h]
  · simp [fwrite, flookup, h, flookup_filter_ne fs p q h, Ne.symm h]

theorem flookup_fwrite_preserve (fs : FS) (p q : String) (sz : Nat)
    (h : flookup fs q ≠ none) : flookup (fwrite fs p sz) q ≠ none := by
  rw [flookup_fwrite]
  split
  · simp
  · exact h

/-! Helper lemmas characterising execution of the statement list. -/

theorem execFrom_of_none (env : Env) (l : List Step) :
    ∀ (c : Nat) (fs : FS), firstFailAux env c l = none →
      (execFrom env c l fs).2.1 = true ∧ (execFrom env c l fs).2.2 = l.length := by
  induction l with
  | nil => intro c fs _; exact ⟨rfl, rfl⟩
  | cons s rest ih =>
      intro c fs h
      rw [firstFailAux] at h
      by_cases hc : (s.fallible && !(env.stepOk c)) = true
      · rw [if_pos hc] at h; exact absurd h (by simp)
      · rw [if_neg hc] at h
        cases s with
        | locate u =>
            have h2 := ih (c + 1) fs h
            simp [execFrom, h2.1, h2.2]
        | goto u =>
            have hok : env.stepOk c = true := by
              cases hb : env.stepOk c
              · exact absurd (by simp [Step.fallible, hb]) hc
              · rfl
            have h2 := ih (c + 1) fs h
            simp [execFrom, hok, h2.1, h2.2]
        | waitForSelector u =>
            have hok : env.stepOk c = true := by
              cases hb : env.stepOk c
              · exact absurd (by simp [Step.fallible, hb]) hc
              · rfl
            have h2 := ih (c + 1) fs h
            simp [execFrom, hok, h2.1, h2.2]
        | click u =>
            have hok : env.stepOk c = true := by
              cases hb : env.stepOk c
              · exact absurd (by simp [Step.fallible, hb]) hc
              · rfl
            have h2 := ih (c + 1) fs h
            simp [execFrom, hok, h2.1, h2.2]
        | screenshot t p =>
            have hok : env.stepOk c = true := by
              cases hb : env.stepOk c
              · exact absurd (by simp [Step.fallible, hb]) hc
              · rfl
            have h2 := ih (c + 1) (fwrite fs p (env.shotSize c)) h
            simp [execFrom, hok, h2.1, h2.2]

theorem execFrom_of_some (env : Env) (l : List Step) :
    ∀ (c : Nat) (fs : FS) (k : Nat), firstFailAux env c l = some k →
      (execFrom env c l fs).2.1 = false ∧ (execFrom env c l fs).2.2 + c = k + 1 := by
  induction l with
  | nil => intro c fs k h; exact absurd h (by simp [firstFailAux])
  | cons s rest ih =>
      intro c fs k h
      rw [firstFailAux] at h
      by_cases hc : (s.fallible && !(env.stepOk c)) = true
      · rw [if_pos hc] at h
        have hk : c = k := by simpa using h
        subst hk
        obtain ⟨hfall, hbad⟩ : s.fallible = true ∧ env.stepOk c = false := by
          simpa using hc
        cases s with
        | locate u => exact absurd hfall (by simp [Step.fallible])
        | goto u =>
            have he : execFrom env c (Step.goto u :: rest) fs = (fs, false, 1) := by
              simp [execFrom, hbad]
            rw [he]
            exact ⟨rfl, Nat.add_comm 1 c⟩
        | waitForSelector u =>
            have he : execFrom env c (Step.waitForSelector u :: rest) fs = (fs, false, 1) := by
              simp [execFrom, hbad]
            rw [he]
            exact ⟨rfl, Nat.add_comm 1 c⟩
        | click u =>
            have he : execFrom env c (Step.click u :: rest) fs = (fs, false, 1) := by
              simp [execFrom, hbad]
            rw [he]
            exact ⟨rfl, Nat.add_comm 1 c⟩
        | screenshot t p =>
            have he : execFrom env c (Step.screenshot t p :: rest) fs = (fs, false, 1) := by
              simp [execFrom, hbad]
            rw [he]
            exact ⟨rfl, Nat.add_comm 1 c⟩
      · rw [if_neg hc] at h
        cases s with
        | locate u =>
            have h2 := ih (c + 1) fs k h
            refine ⟨by simp [execFrom, h2.1], ?_⟩
            have := h2.2
            simp only [execFrom]
            omega
        | goto u =>
            have hok : env.stepOk c = true := by
              cases hb : env.stepOk c
              · exact absurd (by simp [Step.fallible, hb]) hc
              · rfl
            have h2 := ih (c + 1) fs k h
            refine ⟨by simp [execFrom, hok, h2.1], ?_⟩
            have := h2.2
            simp only [execFrom, hok, if_true]
            omega
        | waitForSelector u =>
            have hok : env.stepOk c = true := by
              cases hb : env.stepOk c
              · exact absurd (by simp [Step.fallible, hb]) hc
              · rfl
            have h2 := ih (c + 1) fs k h
            refine ⟨by simp [execFrom, hok, h2.1], ?_⟩
            have := h2.2
            simp only [execFrom, hok, if_true]
            omega
        | click u =>
            have hok : env.stepOk c = true := by
              cases hb : env.stepOk c
              · exact absurd (by simp [Step.fallible, hb]) hc
              · rfl
            have h2 := ih (c + 1) fs k h
            refine ⟨by simp [execFrom, hok, h2.1], ?_⟩
            have := h2.2
            simp only [execFrom, hok, if_true]
            omega
        | screenshot t p =>
            have hok : env.stepOk c = true := by
              cases hb : env.stepOk c
              · exact absurd (by simp [Step.fallible, hb]) hc
              · rfl
            have h2 := ih (c + 1) (fwrite fs p (env.shotSize c)) k h
            refine ⟨by simp [execFrom, hok, h2.1], ?_⟩
            have := h2.2
            simp only [execFrom, hok, if_true]
            omega

theorem execFrom_ok_iff (env : Env) (l : List Step) (c : Nat) (fs : FS) :
    (execFrom env c l fs).2.1 = true ↔ firstFailAux env c l = none := by
  cases h : firstFailAux env c l with
  | none => simp [(execFrom_of_none env l c fs h).1]
  | some k =>
      simp only [(execFrom_of_some env l c fs k h).1]
      simp

theorem execFrom_preserve (env : Env) (l : List Step) :
    ∀ (c : Nat) (fs : FS) (q : String), flookup fs q ≠ none →
      flookup (execFrom env c l fs).1 q ≠ none := by
  induction l with
  | nil => intro c fs q h; exact h
  | cons s rest ih =>
      intro c fs q h
      cases s with
      | locate u => simpa [execFrom] using ih (c + 1) fs q h
      | goto u =>
          cases hb : env.stepOk c
          · simpa [execFrom, hb] using h
          · simpa [execFrom, hb] using ih (c + 1) fs q h
      | waitForSelector u =>
          cases hb : env.stepOk c
          · simpa [execFrom, hb] using h
          · simpa [execFrom, hb] using ih (c + 1) fs q h
      | click u =>
          cases hb : env.stepOk c
          · simpa [execFrom, hb] using h
          · simpa [execFrom, hb] using ih (c + 1) fs q h
      | screenshot t p =>
          cases hb : env.stepOk c
          · simpa [execFrom, hb] using h
          · simpa [execFrom, hb] using
              ih (c + 1) (fwrite fs p (env.shotSize c)) q
                (flookup_fwrite_preserve fs p q (env.shotSize c) h)

theorem execFrom_frame (env : Env) (l : List Step) :
    ∀ (c : Nat) (fs : FS) (q : String), q ∉ shotPaths l →
      flookup (execFrom env c l fs).1 q = flookup fs q := by
  induction l with
  | nil => intro c fs q _; rfl
  | cons s rest ih =>
      intro c fs q h
      cases s with
      | locate u => simpa [execFrom, shotPaths] using ih (c + 1) fs q (by simpa [shotPaths] using h)
      | goto u =>
          cases hb : env.stepOk c
          · simp [execFrom, hb]
          · simpa [execFrom, hb] using ih (c + 1) fs q (by simpa [shotPaths] using h)
      | waitForSelector u =>
          cases hb : env.stepOk c
          · simp [execFrom, hb]
          · simpa [execFrom, hb] using ih (c + 1) fs q (by simpa [shotPaths] using h)
      | click u =>
          cases hb : env.stepOk c
          · simp [execFrom, hb]
          · simpa [execFrom, hb] using ih (c + 1) fs q (by simpa [shotPaths] using h)
      | screenshot t p =>
          have hne : q ≠ p := by
            intro he
            exact h (by simp [shotPaths, he])
          have hrest : q ∉ shotPaths rest := by
            intro hm
            exact h (by simp [shotPaths, hm])
          cases hb : env.stepOk c
          · simp [execFrom, hb]
          · rw [show (execFrom env c (Step.screenshot t p :: rest) fs).1 =
                  (execFrom env (c + 1) rest (fwrite fs p (env.shotSize c))).1 by
                simp [execFrom, hb]]
            rw [ih (c + 1) (fwrite fs p (env.shotSize c)) q hrest]
            rw [flookup_fwrite]
            simp [Ne.symm hne]

/-! Helper lemmas at the level of `run`. -/

theorem run_completed_iff (env : Env) (fs0 : FS) :
    (run lenvAllOk env fs0).completed = true ↔ firstFail env = none := by
  show (execFrom env 0 steps fs0).2.1 = true ↔ firstFailAux env 0 steps = none
  exact execFrom_ok_iff env steps 0 fs0

theorem run_allok_fs (env : Env) (hok : ∀ i, env.stepOk i = true) (fs0 : FS) :
    (run lenvAllOk env fs0).fs =
      fwrite (fwrite (fwrite (fwrite (fwrite fs0 path1 (env.shotSize 2)) path2 (env.shotSize 4))
        path3 (env.shotSize 6)) path4 (env.shotSize 10)) path5 (env.shotSize 16) := by
  simp [run, lenvAllOk, steps, execFrom, hok]

theorem run_allok_completed (env : Env) (hok : ∀ i, env.stepOk i = true) (fs0 : FS) :
    (run lenvAllOk env fs0).completed = true ∧ (run lenvAllOk env fs0).stepsExecuted = 17 := by
  simp [run, lenvAllOk, steps, execFrom, hok]

theorem run_allok_lookup (env : Env) (hok : ∀ i, env.stepOk i = true) (fs0 : FS) (q : String) :
    flookup (run lenvAllOk env fs0).fs q =
      if path5 = q then some (env.shotSize 16)
      else if path4 = q then some (env.shotSize 10)
      else if path3 = q then some (env.shotSize 6)
      else if path2 = q then some (env.shotSize 4)
      else if path1 = q then some (env.shotSize 2)
      else flookup fs0 q := by
  rw [run_allok_fs env hok fs0, flookup_fwrite, flookup_fwrite, flookup_fwrite,
    flookup_fwrite, flookup_fwrite]

/-! Claim theorems. -/

/-- C1, counterexample: the claim says a fully successful run leaves
exactly six image files, but the script has only five screenshot
statements, so a run in which every statement succeeds leaves exactly five
files, not six. -/
theorem C1_six_files_false :
    (run lenvAllOk envAll []).completed = true ∧
    (run lenvAllOk envAll []).fs.length = 5 ∧
    ¬ (run lenvAllOk envAll []).fs.length = 6 := by
  refine ⟨rfl, rfl, ?_⟩
  decide

/-- C1, amended: for every run in which browser acquisition and all
navigation, wait and capture statements succeed and each successful
screenshot writes at least one byte, exactly five image files exist
afterwards in the fixed output directory, non-empty and named per the
fixed convention. -/
theorem C1_five_files (env : Env) (hok : ∀ i, env.stepOk i = true)
    (hsz : ∀ i, 0 < env.shotSize i) :
    (run lenvAllOk env []).completed = true ∧
    (run lenvAllOk env []).fs.map Prod.fst = [path5, path4, path3, path2, path1] ∧
    ∀ e ∈ (run lenvAllOk env []).fs, 0 < e.2 := by
  have hfs : fwrite (fwrite (fwrite (fwrite (fwrite ([] : FS) path1 (env.shotSize 2))
      path2 (env.shotSize 4)) path3 (env.shotSize 6)) path4 (env.shotSize 10))
      path5 (env.shotSize 16) =
      [(path5, env.shotSize 16), (path4, env.shotSize 10), (path3, env.shotSize 6),
        (path2, env.shotSize 4), (path1, env.shotSize 2)] := by
    simp [fwrite, path1, path2, path3, path4, path5]
  refine ⟨(run_allok_completed env hok []).1, ?_, ?_⟩
  · rw [run_allok_fs env hok [], hfs]
    rfl
  · intro e he
    rw [run_allok_fs env hok [], hfs] at he
    simp only [List.mem_cons, List.not_mem_nil, or_false] at he
    rcases he with rfl | rfl | rfl | rfl | rfl <;> exact hsz _

/-- C1, witness for the amended claim at a concrete all-success
environment. -/
theorem C1_five_files_witness :
    (run lenvAllOk envAll []).completed = true ∧
    (run lenvAllOk envAll []).fs.map Prod.fst = [path5, path4, path3, path2, path1] ∧
    ∀ e ∈ (run lenvAllOk envAll []).fs, 0 < e.2 :=
  C1_five_files envAll (fun _ => rfl) (fun _ => Nat.one_pos)

/-- C2: whenever browser, context and page acquisition succeed (so the
`try` block is entered), `browser.close()` is executed on every exit path
of `run`, whether the body completes or fails at any statement. -/
theorem C2_browser_closed (env : Env) (fs0 : FS) :
    (run lenvAllOk env fs0).browserClosed = true := rfl

/-- C3: in a run where everything up to the click on "Upload" succeeds but
that click (statement index 7) fails, the first three capture files exist,
the upload-form and modal files do not, and no statement after the click
is attempted (exactly statements 0-7 execute, and the run fails). -/
theorem C3_upload_absent (env : Env)
    (h0 : env.stepOk 0 = true) (h1 : env.stepOk 1 = true) (h2 : env.stepOk 2 = true)
    (h4 : env.stepOk 4 = true) (h6 : env.stepOk 6 = true) (h7 : env.stepOk 7 = false) :
    (run lenvAllOk env []).fs.map Prod.fst = [path3, path2, path1] ∧
    flookup (run lenvAllOk env []).fs path4 = none ∧
    flookup (run lenvAllOk env []).fs path5 = none ∧
    (run lenvAllOk env []).stepsExecuted = 8 ∧
    (run lenvAllOk env []).completed = false := by
  refine ⟨?_, ?_, ?_, ?_, ?_⟩ <;>
    simp [run, lenvAllOk, steps, execFrom, h0, h1, h2, h4, h6, h7, fwrite, flookup,
      path1, path2, path3, path4, path5]

/-- C3, witness at the concrete environment in which only the "Upload"
click fails. -/
theorem C3_upload_absent_witness :
    (run lenvAllOk envFail7 []).fs.map Prod.fst = [path3, path2, path1] ∧
    flookup (run lenvAllOk envFail7 []).fs path4 = none ∧
    flookup (run lenvAllOk envFail7 []).fs path5 = none ∧
    (run lenvAllOk envFail7 []).stepsExecuted = 8 ∧
    (run lenvAllOk envFail7 []).completed = false :=
  C3_upload_absent envFail7 (by decide) (by decide) (by decide) (by decide)
    (by decide) (by decide)

/-- C4, counterexample: in the run where navigation and the "Visuals" wait
succeed but the first screenshot statement itself fails (e.g. an
unwritable path), the wait preceding the main-page capture succeeded and
yet the main-page file is not written, refuting the biconditional as
stated. -/
theorem C4_iff_false :
    envCapFail.stepOk 1 = true ∧
    flookup (run lenvAllOk envCapFail []).fs path1 = none := by
  exact ⟨by decide, rfl⟩

/-- C4, amended: starting from an empty output directory, a capture file
is written if and only if every fallible statement up to and including
that capture succeeds (statement indices follow `steps`; waits,
navigations, clicks and the captures themselves all count). -/
theorem C4_written_iff (env : Env) :
    (flookup (run lenvAllOk env []).fs path1 ≠ none ↔
      (env.stepOk 0 = true ∧ env.stepOk 1 = true ∧ env.stepOk 2 = true)) ∧
    (flookup (run lenvAllOk env []).fs path2 ≠ none ↔
      (env.stepOk 0 = true ∧ env.stepOk 1 = true ∧ env.stepOk 2 = true ∧
        env.stepOk 4 = true)) ∧
    (flookup (run lenvAllOk env []).fs path3 ≠ none ↔
      (env.stepOk 0 = true ∧ env.stepOk 1 = true ∧ env.stepOk 2 = true ∧
        env.stepOk 4 = true ∧ env.stepOk 6 = true)) ∧
    (flookup (run lenvAllOk env []).fs path4 ≠ none ↔
      (env.stepOk 0 = true ∧ env.stepOk 1 = true ∧ env.stepOk 2 = true ∧
        env.stepOk 4 = true ∧ env.stepOk 6 = true ∧ env.stepOk 7 = true ∧
        env.stepOk 8 = true ∧ env.stepOk 10 = true)) ∧
    (flookup (run lenvAllOk env []).fs path5 ≠ none ↔
      (env.stepOk 0 = true ∧ env.stepOk 1 = true ∧ env.stepOk 2 = true ∧
        env.stepOk 4 = true ∧ env.stepOk 6 = true ∧ env.stepOk 7 = true ∧
        env.stepOk 8 = true ∧ env.stepOk 10 = true ∧ env.stepOk 11 = true ∧
        env.stepOk 12 = true ∧ env.stepOk 13 = true ∧ env.stepOk 14 = true ∧
        env.stepOk 16 = true)) := by
  cases h0 : env.stepOk 0
  · simp [run, lenvAllOk, steps, execFrom, flookup, fwrite, h0,
      path1, path2, path3, path4, path5]
  cases h1 : env.stepOk 1
  · simp [run, lenvAllOk, steps, execFrom, flookup, fwrite, h0, h1,
      path1, path2, path3, path4, path5]
  cases h2 : env.stepOk 2
  · simp [run, lenvAllOk, steps, execFrom, flookup, fwrite, h0, h1, h2,
      path1, path2, path3, path4, path5]
  cases h4 : env.stepOk 4
  · simp [run, lenvAllOk, steps, execFrom, flookup, fwrite, h0, h1, h2, h4,
      path1, path2, path3, path4, path5]
  cases h6 : env.stepOk 6
  · simp [run, lenvAllOk, steps, execFrom, flookup, fwrite, h0, h1, h2, h4, h6,
      path1, path2, path3, path4, path5]
  cases h7 : env.stepOk 7
  · simp [run, lenvAllOk, steps, execFrom, flookup, fwrite, h0, h1, h2, h4, h6, h7,
      path1, path2, path3, path4, path5]
  cases h8 : env.stepOk 8
  · simp [run, lenvAllOk, steps, execFrom, flookup, fwrite, h0, h1, h2, h4, h6, h7, h8,
      path1, path2, path3, path4, path5]
  cases h10 : env.stepOk 10
  · simp [run, lenvAllOk, steps, execFrom, flookup, fwrite, h0, h1, h2, h4, h6, h7, h8,
      h10, path1, path2, path3, path4, path5]
  cases h11 : env.stepOk 11
  · simp [run, lenvAllOk, steps, execFrom, flookup, fwrite, h0, h1, h2, h4, h6, h7, h8,
      h10, h11, path1, path2, path3, path4, path5]
  cases h12 : env.stepOk 12
  · simp [run, lenvAllOk, steps, execFrom, flookup, fwrite, h0, h1, h2, h4, h6, h7, h8,
      h10, h11, h12, path1, path2, path3, path4, path5]
  cases h13 : env.stepOk 13
  · simp [run, lenvAllOk, steps, execFrom, flookup, fwrite, h0, h1, h2, h4, h6, h7, h8,
      h10, h11, h12, h13, path1, path2, path3, path4, path5]
  cases h14 : env.stepOk 14
  · simp [run, lenvAllOk, steps, execFrom, flookup, fwrite, h0, h1, h2, h4, h6, h7, h8,
      h10, h11, h12, h13, h14, path1, path2, path3, path4, path5]
  cases h16 : env.stepOk 16
  · simp [run, lenvAllOk, steps, execFrom, flookup, fwrite, h0, h1, h2, h4, h6, h7, h8,
      h10, h11, h12, h13, h14, h16, path1, path2, path3, path4, path5]
  · simp [run, lenvAllOk, steps, execFrom, flookup, fwrite, h0, h1, h2, h4, h6, h7, h8,
      h10, h11, h12, h13, h14, h16, path1, path2, path3, path4, path5]

/-- C5: if the initial navigation fails, or navigation succeeds and the
wait for the "Visuals" marker fails, the run aborts with zero image files
written, `run` does not return normally (the exception makes the process
exit non-zero), and the browser is still closed. -/
theorem C5_early_abort (env : Env)
    (h : env.stepOk 0 = false ∨ (env.stepOk 0 = true ∧ env.stepOk 1 = false)) :
    (run lenvAllOk env []).fs = [] ∧
    (run lenvAllOk env []).completed = false ∧
    (run lenvAllOk env []).browserClosed = true := by
  rcases h with h0 | ⟨h0, h1⟩
  · refine ⟨?_, ?_, rfl⟩ <;> simp [run, lenvAllOk, steps, execFrom, h0]
  · refine ⟨?_, ?_, rfl⟩ <;> simp [run, lenvAllOk, steps, execFrom, h0, h1]

/-- C5, witness at the environment in which every statement fails, so the
initial navigation fails. -/
theorem C5_early_abort_witness :
    (run lenvAllOk envNone []).fs = [] ∧
    (run lenvAllOk envNone []).completed = false ∧
    (run lenvAllOk envNone []).browserClosed = true :=
  C5_early_abort envNone (Or.inl rfl)

/-- C6: a successful run attempts every statement of the body, and the
non-capture statements of the body are exactly, in order: load the root
address, wait for "Visuals", locate the header, locate the grid, click
"Upload", wait for "Upload Images", locate the main region, click
"Gallery", wait for the grid, click the grid's first child, wait for an
h2 heading, locate the dialog-role region. -/
theorem C6_sequence (env : Env) (fs0 : FS)
    (h : (run lenvAllOk env fs0).completed = true) :
    (run lenvAllOk env fs0).stepsExecuted = steps.length ∧
    steps.filter (fun s => !(s.isCapture)) =
      [ Step.goto "http://localhost:5173",
        Step.waitForSelector "text=Visuals",
        Step.locate "header",
        Step.locate ".grid",
        Step.click "text=Upload",
        Step.waitForSelector "text=Upload Images",
        Step.locate "main",
        Step.click "text=Gallery",
        Step.waitForSelector ".grid",
        Step.click ".grid > div:first-child",
        Step.waitForSelector "h2",
        Step.locate "div[role='dialog']" ] := by
  have hff : firstFail env = none := (run_completed_iff env fs0).mp h
  have h2 := execFrom_of_none env steps 0 fs0 hff
  exact ⟨h2.2, rfl⟩

/-- C6, witness at a concrete all-success environment. -/
theorem C6_sequence_witness :
    (run lenvAllOk envAll []).stepsExecuted = steps.length ∧
    steps.filter (fun s => !(s.isCapture)) =
      [ Step.goto "http://localhost:5173",
        Step.waitForSelector "text=Visuals",
        Step.locate "header",
        Step.locate ".grid",
        Step.click "text=Upload",
        Step.waitForSelector "text=Upload Images",
        Step.locate "main",
        Step.click "text=Gallery",
        Step.waitForSelector ".grid",
        Step.click ".grid > div:first-child",
        Step.waitForSelector "h2",
        Step.locate "div[role='dialog']" ] :=
  C6_sequence envAll [] rfl

/-- C7: statements execute strictly sequentially as a prefix of the body,
each attempted at most once with no retry: when no fallible statement
fails all 17 statements run and the body completes, and when the first
failing statement has index `i` exactly statements 0 to `i` are attempted
(the failing wait or other statement once, nothing after it) and the run
fails. -/
theorem C7_sequential (env : Env) (fs0 : FS) :
    (firstFail env = none →
      (run lenvAllOk env fs0).stepsExecuted = steps.length ∧
      (run lenvAllOk env fs0).completed = true) ∧
    (∀ i, firstFail env = some i →
      (run lenvAllOk env fs0).stepsExecuted = i + 1 ∧
      (run lenvAllOk env fs0).completed = false) := by
  constructor
  · intro h
    have h2 := execFrom_of_none env steps 0 fs0 h
    exact ⟨h2.2, h2.1⟩
  · intro i h
    have h2 := execFrom_of_some env steps 0 fs0 i h
    refine ⟨?_, h2.1⟩
    show (execFrom env 0 steps fs0).2.2 = i + 1
    have h3 := h2.2
    omega

/-- C7, witness: when the wait for "Visuals" (index 1) is the first
failure, exactly two statements are attempted and the run fails. -/
theorem C7_sequential_witness :
    (run lenvAllOk envFail1 []).stepsExecuted = 2 ∧
    (run lenvAllOk envFail1 []).completed = false :=
  (C7_sequential envFail1 []).2 1 (by decide)

/-- C8: no failure of the body is caught and recovered: the run returns
normally exactly when no fallible statement fails; and whatever the
failure point, files already on disk are never deleted and paths other
than the five fixed output paths are never touched. -/
theorem C8_propagation (env : Env) (fs0 : FS) :
    ((run lenvAllOk env fs0).completed = true ↔ firstFail env = none) ∧
    (∀ q, flookup fs0 q ≠ none → flookup (run lenvAllOk env fs0).fs q ≠ none) ∧
    (∀ q, q ∉ outputPaths → flookup (run lenvAllOk env fs0).fs q = flookup fs0 q) := by
  refine ⟨run_completed_iff env fs0, ?_, ?_⟩
  · intro q h
    exact execFrom_preserve env steps 0 fs0 q h
  · intro q h
    exact execFrom_frame env steps 0 fs0 q h

/-- C8, witness: a pre-existing file at a path the script never writes is
left unchanged by a run that fails at the very first statement. -/
theorem C8_propagation_witness :
    flookup (run lenvAllOk envNone [("jules-scratch/verification/other.png", 3)]).fs
        "jules-scratch/verification/other.png" =
      flookup [("jules-scratch/verification/other.png", 3)]
        "jules-scratch/verification/other.png" :=
  (C8_propagation envNone [("jules-scratch/verification/other.png", 3)]).2.2
    "jules-scratch/verification/other.png" (by decide)

/-- C9: two successful runs in a row are idempotent on the set of
filenames: after the second run a path holds a file exactly when it did
after the first, and each of the five fixed paths holds the file written
by the second run (overwritten, no stale accumulation). -/
theorem C9_idempotent (env1 env2 : Env) (h1 : ∀ i, env1.stepOk i = true)
    (h2 : ∀ i, env2.stepOk i = true) (fs0 : FS) :
    (∀ q, flookup (run lenvAllOk env2 (run lenvAllOk env1 fs0).fs).fs q = none ↔
      flookup (run lenvAllOk env1 fs0).fs q = none) ∧
    flookup (run lenvAllOk env2 (run lenvAllOk env1 fs0).fs).fs path1 =
      some (env2.shotSize 2) ∧
    flookup (run lenvAllOk env2 (run lenvAllOk env1 fs0).fs).fs path2 =
      some (env2.shotSize 4) ∧
    flookup (run lenvAllOk env2 (run lenvAllOk env1 fs0).fs).fs path3 =
      some (env2.shotSize 6) ∧
    flookup (run lenvAllOk env2 (run lenvAllOk env1 fs0).fs).fs path4 =
      some (env2.shotSize 10) ∧
    flookup (run lenvAllOk env2 (run lenvAllOk env1 fs0).fs).fs path5 =
      some (env2.shotSize 16) := by
  refine ⟨?_, ?_, ?_, ?_, ?_, ?_⟩
  · intro q
    rw [run_allok_lookup env2 h2 _ q, run_allok_lookup env1 h1 fs0 q]
    split_ifs <;> simp
  all_goals
    rw [run_allok_lookup env2 h2]
    simp [path1, path2, path3, path4, path5]

/-- C9, witness at two concrete all-success runs from an empty
filesystem. -/
theorem C9_idempotent_witness :
    flookup (run lenvAllOk envAll (run lenvAllOk envAll []).fs).fs path1 = some 1 :=
  (C9_idempotent envAll envAll (fun _ => rfl) (fun _ => rfl) []).2.1

/-- C10: when the browser launches but `new_context` or `new_page` fails,
the `try` block is never entered, so `run` does not execute
`browser.close()`, the run fails, and no file is written. -/
theorem C10_no_close_before_page (lenv : LaunchEnv) (env : Env) (fs0 : FS)
    (hl : lenv.launchOk = true)
    (hf : lenv.newContextOk = false ∨ lenv.newPageOk = false) :
    (run lenv env fs0).browserClosed = false ∧
    (run lenv env fs0).completed = false ∧
    (run lenv env fs0).fs = fs0 := by
  obtain ⟨a, b, c⟩ := lenv
  have ha : a = true := hl
  subst ha
  rcases hf with hf | hf
  · have hb : b = false := hf
    subst hb
    simp [run]
  · have hc : c = false := hf
    subst hc
    cases b <;> simp [run]

/-- C10, witness: launch succeeds, `new_context` fails, and `run` ends
without invoking `browser.close()`. -/
theorem C10_no_close_before_page_witness :
    (run lenvNoCtx envAll []).browserClosed = false ∧
    (run lenvNoCtx envAll []).completed = false ∧
    (run lenvNoCtx envAll []).fs = [] :=
  C10_no_close_before_page lenvNoCtx envAll [] rfl (Or.inl rfl)
